import Mathlib

/-!
Verification of the conversation-memory subsystem of the rag-chatbot
repository (app/services/memory_service.py). The Python service is shallowly
embedded: timestamps are naturals counting seconds, database reads that can
raise are `Except String` values, the fire-and-forget background compaction
task is surfaced as an explicit field of the result record, and the
summarization LLM capability is a function parameter. All control flow and
arithmetic mirrors the source.
-/

namespace MemoryService

/-- Configuration constants from MemoryService.__init__. -/
def max_conversation_turns : Nat := 5

/-- Threshold at which summarization starts (turns). -/
def summarization_threshold : Nat := 6

/-- Threshold at which hybrid mode (summary + recent turns) starts. -/
def hybrid_memory_threshold : Nat := 6

/-- Session timeout in hours. -/
def session_timeout_hours : Nat := 24

/-- Cycle length between summaries after the first one. -/
def summary_cycle_length : Nat := 5

/-- One row of chat_history: a single conversation turn. -/
structure Turn where
  user_question : String
  llm_answer : String
  created_at : Nat
deriving DecidableEq, Repr

/-- Result row of the single optimized resolver query in
get_conversation_context_optimized: the latest chat row joined with the
customer_memory row. Fields that can be SQL NULL (or absent through the
LEFT JOIN) are Options. -/
structure ResolverRow where
  session_id : Option String
  created_at : Nat
  session_turn_count : Option Nat
  summary : Option String
  total_conversations : Option Nat
  last_summary_turn : Option Nat
deriving DecidableEq, Repr

/-- The value returned to the caller: (conversation_history, session_id,
customer_summary, use_hybrid), plus the background compaction task the
handler spawned, surfaced as the session id passed to
_summarize_conversations_background (none when no task is spawned). -/
structure ContextResult where
  history : List Turn
  session_id : String
  customer_summary : Option String
  use_hybrid : Bool
  scheduled_compaction : Option String
deriving DecidableEq, Repr

/-- Embeds _format_customer_summary. The Python timedelta
(current_time - last_interaction) is modelled by Nat subtraction of
second counts; timedelta.days is floor division by 86400. A falsy summary
(NULL or empty) or the sentinel "New customer" yields None. -/
def format_customer_summary (summary : Option String) (total_conversations : Option Nat)
    (last_interaction : Nat) (current_time : Nat) : Option String :=
  match summary with
  | none => none
  | some s =>
    if s = "" ∨ s = "New customer" then none
    else
      let seconds := current_time - last_interaction
      let days_ago := max 1 (seconds / 86400)
      let total := total_conversations.getD 0
      let context_intro :=
        if seconds > 86400 then
          s!"Returning customer (last seen {days_ago} days ago, {total} total conversations):\n\n"
        else
          s!"Active customer ({total} conversations today):\n\n"
      some (context_intro ++ s)

/-- Embeds _fetch_conversation_history: SELECT the `limit` most recent rows
of the session (ORDER BY created_at DESC LIMIT $3), then rebuild the list in
chronological order by reversing. `turnsDB sid` is the chronological list of
chat_history rows of session `sid` for this customer, or a raised database
error. -/
def fetch_conversation_history (turnsDB : String → Except String (List Turn))
    (session_id : String) (limit : Nat) : Except String (List Turn) :=
  match turnsDB session_id with
  | .error e => .error e
  | .ok rows => .ok ((rows.reverse.take limit).reverse)

/-- Embeds _handle_active_session. -/
def handle_active_session (session_id : String) (result : ResolverRow)
    (turnsDB : String → Except String (List Turn)) (now : Nat) :
    Except String ContextResult :=
  let session_turn_count := result.session_turn_count.getD 0
  let last_summary_turn := result.last_summary_turn.getD 0
  let use_hybrid : Bool := decide (session_turn_count ≥ hybrid_memory_threshold)
  if use_hybrid then
    let customer_summary :=
      format_customer_summary result.summary result.total_conversations result.created_at now
    let turns_after_summary : Int := (session_turn_count : Int) - (last_summary_turn : Int)
    let recent_turns_to_include : Int := min turns_after_summary 5
    if recent_turns_to_include > 0 then
      match fetch_conversation_history turnsDB session_id recent_turns_to_include.toNat with
      | .error e => .error e
      | .ok conversation_history =>
        .ok ⟨conversation_history, session_id, customer_summary, use_hybrid, none⟩
    else if session_turn_count = 6 then
      match fetch_conversation_history turnsDB session_id 5 with
      | .error e => .error e
      | .ok conversation_history =>
        .ok ⟨conversation_history, session_id, customer_summary, use_hybrid, none⟩
    else
      .ok ⟨[], session_id, customer_summary, use_hybrid, none⟩
  else
    match fetch_conversation_history turnsDB session_id max_conversation_turns with
    | .error e => .error e
    | .ok conversation_history =>
      .ok ⟨conversation_history, session_id, none, use_hybrid, none⟩

/-- Embeds _handle_expired_session. On the small-session path the fetch from
the previous session happens before the background summarization task is
created, so a raised fetch error spawns no task; the spawned task is recorded
in scheduled_compaction. -/
def handle_expired_session (new_session_id : String) (previous_session_id : String)
    (result : ResolverRow) (turnsDB : String → Except String (List Turn)) (now : Nat) :
    Except String ContextResult :=
  let previous_session_turns := result.session_turn_count.getD 0
  if previous_session_turns ≤ max_conversation_turns then
    match fetch_conversation_history turnsDB previous_session_id max_conversation_turns with
    | .error e => .error e
    | .ok conversation_history =>
      let customer_summary :=
        format_customer_summary result.summary result.total_conversations result.created_at now
      .ok ⟨conversation_history, new_session_id, customer_summary,
           customer_summary.isSome, some previous_session_id⟩
  else
    .ok ⟨[], new_session_id,
         format_customer_summary result.summary result.total_conversations result.created_at now,
         true, none⟩

/-- The body of get_conversation_context_optimized inside its try block:
resolver query, empty-history check, 24h expiry check, then dispatch to the
active or expired handler. `fresh_session_id` stands for the value of
self.generate_session_id() (a fresh uuid4). -/
def get_context_body (fresh_session_id : String)
    (queryResult : Except String (Option ResolverRow))
    (turnsDB : String → Except String (List Turn)) (now : Nat) :
    Except String ContextResult :=
  match queryResult with
  | .error e => .error e
  | .ok none => .ok ⟨[], fresh_session_id, none, false, none⟩
  | .ok (some result) =>
    match result.session_id with
    | none => .ok ⟨[], fresh_session_id, none, false, none⟩
    | some sid =>
      if now - result.created_at > session_timeout_hours * 3600 then
        handle_expired_session fresh_session_id sid result turnsDB now
      else
        handle_active_session sid result turnsDB now

/-- Embeds get_conversation_context_optimized: the try/except wrapper that
degrades any raised error to the safe default ([], fresh session id, no
summary, no hybrid). -/
def get_conversation_context_optimized (fresh_session_id : String)
    (queryResult : Except String (Option ResolverRow))
    (turnsDB : String → Except String (List Turn)) (now : Nat) : ContextResult :=
  match get_context_body fresh_session_id queryResult turnsDB now with
  | .ok r => r
  | .error _ => ⟨[], fresh_session_id, none, false, none⟩

/-- One customer_memory row (summary is NOT NULL in every write the service
performs; last_summary_turn is NULL until the first compaction lands). -/
structure CustomerMemory where
  summary : String
  total_conversations : Nat
  first_interaction : Nat
  last_interaction : Nat
  customer_type : String
  interaction_frequency : String
  updated_at : Nat
  last_summary_turn : Option Nat
deriving DecidableEq, Repr

/-- Embeds the customer_memory statistics upsert inside _save_chat_to_db
(INSERT ... ON CONFLICT DO UPDATE with server-side CASE arithmetic). -/
def update_customer_stats (mem : Option CustomerMemory) (now : Nat) : CustomerMemory :=
  match mem with
  | none => ⟨"New customer", 1, now, now, "new", "low", now, none⟩
  | some m =>
    { m with
      total_conversations := m.total_conversations + 1
      last_interaction := now
      customer_type :=
        if m.total_conversations ≥ 10 then "loyal"
        else if m.total_conversations ≥ 3 then "returning"
        else "new"
      interaction_frequency :=
        if (now - m.last_interaction) / 3600 < 24 then "high"
        else if (now - m.last_interaction) / 3600 < 168 then "medium"
        else "low"
      updated_at := now }

/-- Embeds the summarization-trigger decision of _save_chat_to_db: first
summary at turn 6, then every 5 turns after 6 (11, 16, 21, ...). -/
def should_trigger_summary (session_turn_count : Nat) : Bool :=
  session_turn_count == 6 ||
    (decide (session_turn_count > 6) && (session_turn_count - 6) % 5 == 0)

/-- Embeds _save_chat_to_db on the state of one session: insert the chat row,
upsert the customer statistics, COUNT(*) the session, and spawn the background
compaction when the trigger fires. The third component is the current_turn
argument handed to _summarize_conversations_background (none when no task is
spawned). -/
def save_chat_to_db (turns : List Turn) (mem : Option CustomerMemory)
    (newTurn : Turn) (now : Nat) : List Turn × CustomerMemory × Option Nat :=
  let turns2 := turns ++ [newTurn]
  let mem2 := update_customer_stats mem now
  let session_turn_count := turns2.length
  let should := should_trigger_summary session_turn_count
  (turns2, mem2, if should then some session_turn_count else none)

/-- Embeds the fetchval `SELECT summary FROM customer_memory WHERE
customer_phone = $1 AND summary != 'New customer'`: the existing summary,
none when the row is missing or the summary is the sentinel. -/
def existing_summary_of (mem : Option CustomerMemory) : Option String :=
  match mem with
  | none => none
  | some m => if m.summary = "New customer" then none else some m.summary

/-- Embeds the summary-generation step of _summarize_conversations_background:
a truthy existing summary goes through update_customer_summary, otherwise
summarize_conversation is called. Both LLM capabilities are parameters and may
fail. -/
def generate_summary (upd : String → List Turn → Except String String)
    (cre : List Turn → Except String String)
    (existing : Option String) (convs : List Turn) : Except String String :=
  match existing with
  | some es => if es = "" then cre convs else upd es convs
  | none => cre convs

/-- Embeds `last_summary_turn = (current_turn or len(conversations)) - 1`:
the Python `or` takes the conversation count when current_turn is falsy
(None or 0). -/
def compaction_last_summary_turn (current_turn : Option Nat) (convs_len : Nat) : Nat :=
  (match current_turn with
   | some n => if n = 0 then convs_len else n
   | none => convs_len) - 1

/-- Embeds the summary upsert of _summarize_conversations_background
(INSERT ... ON CONFLICT DO UPDATE SET summary = EXCLUDED.summary,
updated_at = EXCLUDED.updated_at, last_summary_turn =
EXCLUDED.last_summary_turn). The update is unconditional. -/
def upsert_summary (mem : Option CustomerMemory) (new_summary : String)
    (now : Nat) (last_summary_turn : Nat) : CustomerMemory :=
  match mem with
  | none => ⟨new_summary, 1, now, now, "new", "low", now, some last_summary_turn⟩
  | some m =>
    { m with
      summary := new_summary
      updated_at := now
      last_summary_turn := some last_summary_turn }

/-- Embeds _summarize_conversations_background acting on one customer_memory
row: load the session conversations (passed in as `convs`), bail out if there
are none, generate the new summary, and persist it with the watermark; any
raised error is caught and leaves the row untouched. -/
def summarize_conversations_background (mem : Option CustomerMemory)
    (convs : List Turn) (current_turn : Option Nat)
    (upd : String → List Turn → Except String String)
    (cre : List Turn → Except String String) (now : Nat) : Option CustomerMemory :=
  if convs.length < 1 then mem
  else
    match generate_summary upd cre (existing_summary_of mem) convs with
    | .error _ => mem
    | .ok new_summary =>
      some (upsert_summary mem new_summary now
        (compaction_last_summary_turn current_turn convs.length))

/-! Helper lemmas and sample data. -/

/-- A generic turn used in concrete witnesses. -/
def sampleTurn : Turn := ⟨"q", "a", 0⟩

/-- An update_customer_summary capability that always succeeds. -/
def upd_ok : String → List Turn → Except String String := fun _ _ => .ok "updated summary"

/-- A summarize_conversation capability that always succeeds. -/
def cre_ok : List Turn → Except String String := fun _ => .ok "fresh summary"

theorem fetch_of_db_ok (turnsDB : String → Except String (List Turn))
    (sid : String) (limit : Nat) (turns : List Turn) (h : turnsDB sid = .ok turns) :
    fetch_conversation_history turnsDB sid limit = .ok ((turns.reverse.take limit).reverse) := by
  unfold fetch_conversation_history
  rw [h]

theorem fetch_ok_length_le (turnsDB : String → Except String (List Turn))
    (sid : String) (limit : Nat) (h : List Turn)
    (hf : fetch_conversation_history turnsDB sid limit = .ok h) : h.length ≤ limit := by
  unfold fetch_conversation_history at hf
  cases hdb : turnsDB sid with
  | error e => rw [hdb] at hf; exact absurd hf (by simp)
  | ok rows =>
    rw [hdb] at hf
    simp only [Except.ok.injEq] at hf
    subst hf
    simp [List.length_take]

theorem should_trigger_summary_iff (n : Nat) :
    should_trigger_summary n = true ↔ (n = 6 ∨ (6 < n ∧ (n - 6) % 5 = 0)) := by
  simp [should_trigger_summary]

/-! Claim theorems. -/

/-- C9: for a customer with zero stored turns (the resolver query returns no
row), GetContext returns the empty history, the freshly generated session id,
no summary, and useHybrid = false. -/
theorem no_history_returns_empty_plan (fresh : String)
    (turnsDB : String → Except String (List Turn)) (now : Nat) :
    get_conversation_context_optimized fresh (.ok none) turnsDB now =
      ⟨[], fresh, none, false, none⟩ := rfl

/-- C8: whenever resolving the session state or fetching turns raises (the
body of the try block produces an error), GetContext does not propagate the
error and instead returns the NoHistory plan: empty turns, a fresh session
id, no summary, useHybrid = false. -/
theorem failure_degrades_to_no_history (fresh : String)
    (queryResult : Except String (Option ResolverRow))
    (turnsDB : String → Except String (List Turn)) (now : Nat) (e : String)
    (h : get_context_body fresh queryResult turnsDB now = .error e) :
    get_conversation_context_optimized fresh queryResult turnsDB now =
      ⟨[], fresh, none, false, none⟩ := by
  unfold get_conversation_context_optimized
  rw [h]

/-- Witness for C8: a concrete resolver failure degrades to the NoHistory
plan. -/
theorem failure_degrades_to_no_history_witness :
    get_conversation_context_optimized "fresh-id" (.error "db down")
        (fun _ => .ok []) 0 = ⟨[], "fresh-id", none, false, none⟩ :=
  failure_degrades_to_no_history "fresh-id" (.error "db down")
    (fun _ => .ok []) 0 "db down" rfl

/-- C4: after every turn append with resulting session turn count n, a
background compaction is scheduled if and only if n = 6 or (n > 6 and
(n - 6) % 5 = 0) — first compaction at turn 6, then at 11, 16, 21, and so
on. -/
theorem compaction_scheduled_iff_threshold (turns : List Turn)
    (mem : Option CustomerMemory) (t : Turn) (now : Nat) :
    (save_chat_to_db turns mem t now).1.length = turns.length + 1 ∧
    ((save_chat_to_db turns mem t now).2.2.isSome = true ↔
      (turns.length + 1 = 6 ∨
        (6 < turns.length + 1 ∧ (turns.length + 1 - 6) % 5 = 0))) := by
  constructor
  · simp [save_chat_to_db]
  · rw [← should_trigger_summary_iff]
    simp only [save_chat_to_db, List.length_append, List.length_cons, List.length_nil]
    cases hs : should_trigger_summary (turns.length + (0 + 1)) <;>
      simp_all

/-- C2 evidence: the persisted-summary upsert overwrites the watermark
unconditionally, so a compaction carrying watermark 10 followed by a stale
compaction carrying watermark 5 leaves the final watermark at 5, regressing
below 10. -/
theorem stale_compaction_regresses_watermark :
    ((summarize_conversations_background
        (summarize_conversations_background
          (some ⟨"base summary", 11, 0, 0, "loyal", "high", 0, some 0⟩)
          (List.replicate 11 sampleTurn) (some 11) upd_ok cre_ok 1)
        (List.replicate 6 sampleTurn) (some 6) upd_ok cre_ok 2).map
      CustomerMemory.last_summary_turn) = some (some 5) := rfl

/-- C5: a compaction triggered at session turn count n (n ≥ 1) whose
summarization succeeds persists a row whose summary is the freshly generated
text and whose last_summary_turn watermark is n - 1, the last turn covered. -/
theorem compaction_persists_watermark (mem : Option CustomerMemory)
    (convs : List Turn) (n : Nat)
    (upd : String → List Turn → Except String String)
    (cre : List Turn → Except String String) (now : Nat) (s : String)
    (hn : 1 ≤ n) (hc : convs ≠ [])
    (hs : generate_summary upd cre (existing_summary_of mem) convs = .ok s) :
    ∃ m2, summarize_conversations_background mem convs (some n) upd cre now = some m2 ∧
      m2.summary = s ∧ m2.last_summary_turn = some (n - 1) := by
  have hwm : compaction_last_summary_turn (some n) convs.length = n - 1 := by
    show (if n = 0 then convs.length else n) - 1 = n - 1
    rw [if_neg (by omega)]
  refine ⟨upsert_summary mem s now (n - 1), ?_, ?_, ?_⟩
  · unfold summarize_conversations_background
    rw [if_neg (by simp [Nat.lt_one_iff, List.length_eq_zero, hc]), hs, hwm]
  · cases mem <;> rfl
  · cases mem <;> rfl

/-- Witness for C5: a compaction at turn 6 over one stored turn with a
successful summarizer persists watermark 5. -/
theorem compaction_persists_watermark_witness :
    ∃ m2, summarize_conversations_background none [sampleTurn] (some 6)
        upd_ok cre_ok 0 = some m2 ∧
      m2.summary = "fresh summary" ∧ m2.last_summary_turn = some (6 - 1) :=
  compaction_persists_watermark none [sampleTurn] 6 upd_ok cre_ok 0
    "fresh summary" (by decide) (by decide) rfl

/-! Concrete active-session states around the first compaction (turn count
six stored turns), used for C3. -/

/-- Resolver row at six stored turns before the first compaction lands. -/
def row6_before : ResolverRow := ⟨some "sess", 0, some 6, some "existing summary", some 6, some 0⟩

/-- Resolver row at six stored turns after the first compaction lands with
watermark 5. -/
def row6_after : ResolverRow := ⟨some "sess", 0, some 6, some "existing summary", some 6, some 5⟩

/-- A turn store holding exactly six turns in the session. -/
def turnsDB6 : String → Except String (List Turn) := fun _ => .ok (List.replicate 6 sampleTurn)

/-- C3 counterexample: at six stored turns, immediately after the compaction
lands with watermark 5, the plan fetches 1 recent turn, not 5 — so the plan
before the compaction (which fetches 5) and the plan after it are not
identical, contradicting the claim. -/
theorem turn6_plan_changes_after_compaction :
    (handle_active_session "sess" row6_after turnsDB6 100).map
        (fun r => r.history.length) = .ok 1 ∧
      (Except.ok 1 : Except String Nat) ≠ .ok 5 := ⟨rfl, by simp⟩

/-- C3 amended: at six stored turns the plan before the first compaction
lands (watermark 0) has useHybrid = true and fetches 5 turns (turns 1 to 5),
while the plan immediately after the compaction lands with watermark 5 has
useHybrid = true and fetches 1 turn (turn 6 only). -/
theorem turn6_plans_before_and_after_compaction :
    (handle_active_session "sess" row6_before turnsDB6 100).map
        (fun r => (r.use_hybrid, r.history.length)) = .ok (true, 5) ∧
    (handle_active_session "sess" row6_after turnsDB6 100).map
        (fun r => (r.use_hybrid, r.history.length)) = .ok (true, 1) := ⟨rfl, rfl⟩

/-- C1: in an active session with turnCount ≥ 6 and a watermark not beyond
the turn count, the plan has includeSummary (the hybrid flag) true and
fetches min(turnCount - lastSummaryTurn, 5) turns, except that at
turnCount = 6 with turnsSinceSummary = 0 it fetches 5 turns so that turns
1 to 5 stay visible until their summary exists. -/
theorem active_hybrid_plan_turns (session_id : String) (result : ResolverRow)
    (turnsDB : String → Except String (List Turn)) (now : Nat) (turns : List Turn)
    (hdb : turnsDB session_id = .ok turns)
    (hlen : turns.length = result.session_turn_count.getD 0)
    (h6 : 6 ≤ result.session_turn_count.getD 0)
    (hws : result.last_summary_turn.getD 0 ≤ result.session_turn_count.getD 0) :
    ∃ r, handle_active_session session_id result turnsDB now = .ok r ∧
      r.use_hybrid = true ∧
      r.history.length =
        if result.session_turn_count.getD 0 = 6 ∧ result.last_summary_turn.getD 0 = 6
        then 5
        else min (result.session_turn_count.getD 0 - result.last_summary_turn.getD 0) 5 := by
  set c := result.session_turn_count.getD 0 with hceq
  set l := result.last_summary_turn.getD 0 with hleq
  have hhyb : decide (c ≥ hybrid_memory_threshold) = true := by
    simp only [hybrid_memory_threshold, ge_iff_le, decide_eq_true_eq]
    omega
  by_cases hlt : l < c
  · have hpos : (0 : Int) < min ((c : Int) - (l : Int)) 5 := by omega
    have htn : (min ((c : Int) - (l : Int)) 5).toNat = min (c - l) 5 := by omega
    refine ⟨⟨(turns.reverse.take (min (c - l) 5)).reverse, session_id,
      format_customer_summary result.summary result.total_conversations result.created_at now,
      true, none⟩, ?_, rfl, ?_⟩
    · simp only [handle_active_session, ← hceq, ← hleq, hhyb, if_true]
      rw [if_pos hpos, htn, fetch_of_db_ok turnsDB session_id _ turns hdb]
    · simp only [List.length_reverse, List.length_take]
      rw [if_neg (by omega)]
      omega
  · have hle : l = c := by omega
    have hnpos : ¬ ((0 : Int) < min ((c : Int) - (l : Int)) 5) := by omega
    by_cases h6' : c = 6
    · refine ⟨⟨(turns.reverse.take 5).reverse, session_id,
        format_customer_summary result.summary result.total_conversations result.created_at now,
        true, none⟩, ?_, rfl, ?_⟩
      · simp only [handle_active_session, ← hceq, ← hleq, hhyb, if_true]
        rw [if_neg hnpos, if_pos h6', fetch_of_db_ok turnsDB session_id _ turns hdb]
      · simp only [List.length_reverse, List.length_take]
        rw [if_pos (by omega)]
        omega
    · refine ⟨⟨[], session_id,
        format_customer_summary result.summary result.total_conversations result.created_at now,
        true, none⟩, ?_, rfl, ?_⟩
      · simp only [handle_active_session, ← hceq, ← hleq, hhyb, if_true]
        rw [if_neg hnpos, if_neg h6']
      · simp only [List.length_nil]
        rw [if_neg (by omega)]
        omega

/-- Witness for C1: at seven stored turns with watermark 5, the plan is
hybrid and fetches min(7 - 5, 5) = 2 turns. -/
theorem active_hybrid_plan_turns_witness :
    ∃ r, handle_active_session "sess"
        ⟨some "sess", 0, some 7, some "existing summary", some 7, some 5⟩
        (fun _ => .ok (List.replicate 7 sampleTurn)) 100 = .ok r ∧
      r.use_hybrid = true ∧
      r.history.length =
        if (7 : Nat) = 6 ∧ (5 : Nat) = 6 then 5 else min (7 - 5) 5 :=
  active_hybrid_plan_turns "sess"
    ⟨some "sess", 0, some 7, some "existing summary", some 7, some 5⟩
    (fun _ => .ok (List.replicate 7 sampleTurn)) 100 (List.replicate 7 sampleTurn)
    rfl (by decide) (by decide) (by decide)

/-- C10: in hybrid mode with a watermark at or beyond the live turn count and
turnCount ≠ 6, the plan succeeds with zero recent turns (summary-only
context); it does not fail and performs no fetch, so the result is the same
even when every fetch would raise. -/
theorem stale_watermark_gives_summary_only (session_id : String) (result : ResolverRow)
    (turnsDB : String → Except String (List Turn)) (now : Nat)
    (h6 : 6 ≤ result.session_turn_count.getD 0)
    (hge : result.session_turn_count.getD 0 ≤ result.last_summary_turn.getD 0)
    (hne : result.session_turn_count.getD 0 ≠ 6) :
    handle_active_session session_id result turnsDB now =
      .ok ⟨[], session_id,
        format_customer_summary result.summary result.total_conversations result.created_at now,
        true, none⟩ := by
  set c := result.session_turn_count.getD 0 with hceq
  set l := result.last_summary_turn.getD 0 with hleq
  have hhyb : decide (c ≥ hybrid_memory_threshold) = true := by
    simp only [hybrid_memory_threshold, ge_iff_le, decide_eq_true_eq]
    omega
  have hnpos : ¬ ((0 : Int) < min ((c : Int) - (l : Int)) 5) := by omega
  simp only [handle_active_session, ← hceq, ← hleq, hhyb, if_true]
  rw [if_neg hnpos, if_neg hne]

/-- Witness for C10: seven stored turns with watermark 7 produce the
summary-only plan even though every fetch would raise. -/
theorem stale_watermark_gives_summary_only_witness :
    handle_active_session "sess"
        ⟨some "sess", 0, some 7, some "existing summary", some 3, some 7⟩
        (fun _ => .error "db down") 50 =
      .ok ⟨[], "sess",
        format_customer_summary (some "existing summary") (some 3) 0 50, true, none⟩ :=
  stale_watermark_gives_summary_only "sess"
    ⟨some "sess", 0, some 7, some "existing summary", some 3, some 7⟩
    (fun _ => .error "db down") 50 (by decide) (by decide) (by decide)

/-- C7: for an expired session with at most 5 previous turns, the plan
returns the freshly generated session id, the whole previous session history
(min(previousTurnCount, 5) turns fetched from the previous session id), sets
includeSummary exactly when a non-sentinel non-empty summary is stored, and
schedules a background compaction of the previous session. -/
theorem expired_small_session_plan (new_session_id previous_session_id : String)
    (result : ResolverRow) (turnsDB : String → Except String (List Turn))
    (now : Nat) (turns : List Turn)
    (hdb : turnsDB previous_session_id = .ok turns)
    (hlen : turns.length = result.session_turn_count.getD 0)
    (hsmall : result.session_turn_count.getD 0 ≤ 5) :
    ∃ r, handle_expired_session new_session_id previous_session_id result turnsDB now = .ok r ∧
      r.session_id = new_session_id ∧
      r.history = turns ∧
      r.history.length = min (result.session_turn_count.getD 0) 5 ∧
      (r.use_hybrid = true ↔
        ∃ s, result.summary = some s ∧ s ≠ "" ∧ s ≠ "New customer") ∧
      r.scheduled_compaction = some previous_session_id := by
  have htake : (turns.reverse.take max_conversation_turns).reverse = turns := by
    rw [List.take_of_length_le (by simp only [List.length_reverse, max_conversation_turns]; omega),
      List.reverse_reverse]
  refine ⟨⟨turns, new_session_id,
    format_customer_summary result.summary result.total_conversations result.created_at now,
    (format_customer_summary result.summary result.total_conversations result.created_at now).isSome,
    some previous_session_id⟩, ?_, rfl, rfl, ?_, ?_, rfl⟩
  · simp only [handle_expired_session]
    rw [if_pos (show result.session_turn_count.getD 0 ≤ max_conversation_turns from hsmall),
      fetch_of_db_ok turnsDB previous_session_id _ turns hdb, htake]
  · show turns.length = min (result.session_turn_count.getD 0) 5
    omega
  · cases hsum : result.summary with
    | none => simp [format_customer_summary, hsum]
    | some s =>
      by_cases h1 : s = ""
      · simp [format_customer_summary, hsum, h1]
      · by_cases h2 : s = "New customer"
        · simp [format_customer_summary, hsum, h2]
        · simp [format_customer_summary, hsum, h1, h2]

/-- Witness for C7: an expired session with 3 previous turns and a stored
non-sentinel summary carries all 3 turns into the new session, includes the
summary, and schedules a compaction of the previous session. -/
theorem expired_small_session_plan_witness :
    ∃ r, handle_expired_session "new-id" "old-sess"
        ⟨some "old-sess", 0, some 3, some "existing summary", some 3, none⟩
        (fun _ => .ok (List.replicate 3 sampleTurn)) 100000 = .ok r ∧
      r.session_id = "new-id" ∧
      r.history = List.replicate 3 sampleTurn ∧
      r.history.length = min 3 5 ∧
      (r.use_hybrid = true ↔
        ∃ s, (some "existing summary" : Option String) = some s ∧
          s ≠ "" ∧ s ≠ "New customer") ∧
      r.scheduled_compaction = some "old-sess" :=
  expired_small_session_plan "new-id" "old-sess"
    ⟨some "old-sess", 0, some 3, some "existing summary", some 3, none⟩
    (fun _ => .ok (List.replicate 3 sampleTurn)) 100000 (List.replicate 3 sampleTurn)
    rfl (by decide) (by decide)

theorem handle_active_history_le (session_id : String) (result : ResolverRow)
    (turnsDB : String → Except String (List Turn)) (now : Nat) (r : ContextResult)
    (h : handle_active_session session_id result turnsDB now = .ok r) :
    r.history.length ≤ 5 := by
  simp only [handle_active_session] at h
  split at h
  · split at h
    · rename_i hrec
      cases hf : fetch_conversation_history turnsDB session_id
          (min ((result.session_turn_count.getD 0 : Int) -
            (result.last_summary_turn.getD 0 : Int)) 5).toNat with
      | error e => rw [hf] at h; exact absurd h (by simp)
      | ok hist =>
        rw [hf] at h
        simp only [Except.ok.injEq] at h
        subst h
        have := fetch_ok_length_le _ _ _ _ hf
        have hb : (min ((result.session_turn_count.getD 0 : Int) -
            (result.last_summary_turn.getD 0 : Int)) 5).toNat ≤ 5 := by omega
        simpa using le_trans this hb
    · split at h
      · cases hf : fetch_conversation_history turnsDB session_id 5 with
        | error e => rw [hf] at h; exact absurd h (by simp)
        | ok hist =>
          rw [hf] at h
          simp only [Except.ok.injEq] at h
          subst h
          simpa using fetch_ok_length_le _ _ _ _ hf
      · simp only [Except.ok.injEq] at h
        subst h
        simp
  · cases hf : fetch_conversation_history turnsDB session_id max_conversation_turns with
    | error e => rw [hf] at h; exact absurd h (by simp)
    | ok hist =>
      rw [hf] at h
      simp only [Except.ok.injEq] at h
      subst h
      simpa [max_conversation_turns] using fetch_ok_length_le _ _ _ _ hf

theorem handle_expired_history_le (new_session_id previous_session_id : String)
    (result : ResolverRow) (turnsDB : String → Except String (List Turn))
    (now : Nat) (r : ContextResult)
    (h : handle_expired_session new_session_id previous_session_id result turnsDB now = .ok r) :
    r.history.length ≤ 5 := by
  simp only [handle_expired_session] at h
  split at h
  · cases hf : fetch_conversation_history turnsDB previous_session_id
        max_conversation_turns with
    | error e => rw [hf] at h; exact absurd h (by simp)
    | ok hist =>
      rw [hf] at h
      simp only [Except.ok.injEq] at h
      subst h
      simpa [max_conversation_turns] using fetch_ok_length_le _ _ _ _ hf
  · simp only [Except.ok.injEq] at h
    subst h
    simp

/-- C6: for every session state — any resolver outcome, any turn store, any
clock — the retrieval plan carries at most 5 turns. -/
theorem plan_returns_at_most_five_turns (fresh_session_id : String)
    (queryResult : Except String (Option ResolverRow))
    (turnsDB : String → Except String (List Turn)) (now : Nat) :
    (get_conversation_context_optimized fresh_session_id queryResult turnsDB now).history.length
      ≤ 5 := by
  unfold get_conversation_context_optimized
  cases hb : get_context_body fresh_session_id queryResult turnsDB now with
  | error e => simp
  | ok r =>
    simp only []
    cases queryResult with
    | error e => exact absurd hb (by simp [get_context_body])
    | ok o =>
      cases o with
      | none =>
        simp only [get_context_body, Except.ok.injEq] at hb
        subst hb
        simp
      | some result =>
        cases hsid : result.session_id with
        | none =>
          simp only [get_context_body, hsid, Except.ok.injEq] at hb
          subst hb
          simp
        | some sid =>
          simp only [get_context_body, hsid] at hb
          split at hb
          · exact handle_expired_history_le _ _ _ _ _ _ hb
          · exact handle_active_history_le _ _ _ _ _ hb

end MemoryService
